import Mathlib

/-!
Verification of the threshold-evaluation logic of the
`lighthouse-check-status-action` GitHub Action (`src/index.js`).

The action reads five optional minimum-score inputs as raw strings,
normalizes them (`normalizeInput`), and — when at least one normalized
value is truthy — scans the parsed results payload, collecting one
failure message per (audit result, category) pair whose numeric score is
below the numeric threshold (`getScoreFailMessage`, `getFailureMessages`).
If any message was collected it throws an error whose text is a fixed
header plus the newline-joined messages; the catch block hands that text
to the status reporter (`core.setFailed`).

Modelling choices:
* JavaScript values flowing through the evaluator are modelled by `JSVal`
  (undefined, booleans, strings, numbers).  Numbers are modelled as `Int`:
  Lighthouse scores and thresholds are integer-valued in the payload and
  inputs this action consumes.  `Number(x)` is modelled by
  `toNumber : JSVal → Option Int`, with `none` playing the role of `NaN`
  (any `<` comparison against `NaN` is false, `jsLt`).
* The source never `JSON.parse`s the `lighthouseCheckResults` input: the
  raw string itself is passed to `getFailureMessages`, where accessing
  `.data` on a string yields `undefined` and `undefined.reduce` throws a
  `TypeError`.  `runAction` models the whole top-level try/catch
  faithfully over that raw string: `none` means the invocation succeeds
  (nothing reported), `some msg` that it is marked failed with
  explanation `msg`; with any threshold set, `msg` is always the
  `TypeError` text.
* The structured type `ResultsPayload` models the parsed payload the
  scanning code of `getFailureMessages` (lines 37-78) is written
  against; the evaluator-level claims about that scan are stated over
  it directly.
-/

/-- JavaScript values reaching the evaluator: `undefined`, booleans,
strings, and (integer) numbers. -/
inductive JSVal where
  | undef : JSVal
  | bool : Bool → JSVal
  | str : String → JSVal
  | num : Int → JSVal
deriving DecidableEq

/-- JavaScript truthiness for the values of `JSVal`. -/
def truthy : JSVal → Bool
  | .undef => false
  | .bool b => b
  | .str s => s ≠ ""
  | .num n => n ≠ 0

/-- JavaScript `Number()` conversion on an integer-formatted string:
the empty string converts to `0`, an optionally signed digit string to
its value, and anything else to `NaN` (`none`). -/
def jsStringToNumber (s : String) : Option Int :=
  let digitsVal : List Char → Int :=
    fun cs => cs.foldl (fun a c => a * 10 + (Int.ofNat (c.toNat - 48))) 0
  let allDigits : List Char → Bool :=
    fun cs => cs ≠ [] && cs.all Char.isDigit
  match s.toList with
  | [] => some 0
  | '-' :: rest => if allDigits rest then some (-(digitsVal rest)) else none
  | '+' :: rest => if allDigits rest then some (digitsVal rest) else none
  | cs => if allDigits cs then some (digitsVal cs) else none

/-- JavaScript `Number()` on a `JSVal`; `none` stands for `NaN`. -/
def toNumber : JSVal → Option Int
  | .undef => none
  | .bool b => some (if b then 1 else 0)
  | .str s => jsStringToNumber s
  | .num n => some n

/-- JavaScript `<` on converted numbers: false whenever either side is
`NaN`. -/
def jsLt (a b : Option Int) : Bool :=
  match a, b with
  | some x, some y => decide (x < y)
  | _, _ => false

/-- JavaScript string interpolation of a `JSVal` (template literals). -/
def jsToString : JSVal → String
  | .undef => "undefined"
  | .bool b => if b then "true" else "false"
  | .str s => s
  | .num n => toString n

/-- `normalizeInput` from `src/index.js`: `'true'`/`'false'` become
booleans, the empty string becomes `undefined`, anything else is
returned unchanged. -/
def normalizeInput (input : String) : JSVal :=
  if input = "true" then .bool true
  else if input = "false" then .bool false
  else if input = "" then .undef
  else .str input

/-- `getScoreFailMessage` from `src/index.js`: skip when the threshold or
the score is falsy, otherwise emit one message when the numeric score is
below the numeric threshold. -/
def getScoreFailMessage (name url : String) (minScore score : JSVal) : List String :=
  if !truthy minScore || !truthy score then []
  else if jsLt (toNumber score) (toNumber minScore) then
    [url ++ ": " ++ name ++ ": minimum score: " ++ jsToString minScore
      ++ ", actual score: " ++ jsToString score]
  else []

/-- The per-category scores of one audit result; `none` is an absent
category. -/
structure Scores where
  accessibility : Option Int
  bestPractices : Option Int
  performance : Option Int
  progressiveWebApp : Option Int
  seo : Option Int
deriving DecidableEq

/-- One audited page; `runtimeError` is carried but never read by
`src/index.js`. -/
structure AuditResult where
  url : String
  scores : Scores
  runtimeError : Option String := none
deriving DecidableEq

/-- The parsed `lighthouseCheckResults` payload. -/
structure ResultsPayload where
  data : List AuditResult
  runtimeError : Option String := none
deriving DecidableEq

/-- The five normalized threshold values. -/
structure ThresholdConfig where
  minAccessibilityScore : JSVal
  minBestPracticesScore : JSVal
  minPerformanceScore : JSVal
  minProgressiveWebAppScore : JSVal
  minSeoScore : JSVal
deriving DecidableEq

/-- A present score is a number, an absent one is `undefined`. -/
def scoreVal : Option Int → JSVal
  | none => .undef
  | some n => .num n

/-- The five `getScoreFailMessage` calls for one audit result, in source
order.  In the source each call site spreads `...current` after the
explicit fields; with the payload shape used here (`url`, `scores`,
`runtimeError`) the spread only supplies `url`, so the explicit `name`,
`minScore` and `score` survive. -/
def resultMessages (cfg : ThresholdConfig) (current : AuditResult) : List String :=
  getScoreFailMessage "Accessibility" current.url cfg.minAccessibilityScore
      (scoreVal current.scores.accessibility)
    ++ getScoreFailMessage "Best Practices" current.url cfg.minBestPracticesScore
      (scoreVal current.scores.bestPractices)
    ++ getScoreFailMessage "Performance" current.url cfg.minPerformanceScore
      (scoreVal current.scores.performance)
    ++ getScoreFailMessage "Progressive Web App" current.url cfg.minProgressiveWebAppScore
      (scoreVal current.scores.progressiveWebApp)
    ++ getScoreFailMessage "SEO" current.url cfg.minSeoScore
      (scoreVal current.scores.seo)

/-- `getFailureMessages` from `src/index.js`: a left fold (`reduce`)
appending each result's messages to the accumulator, starting from `[]`. -/
def getFailureMessages (cfg : ThresholdConfig) (results : ResultsPayload) : List String :=
  results.data.foldl (fun accumulator current => accumulator ++ resultMessages cfg current) []

/-- The raw string inputs read via `core.getInput`. -/
structure RawInputs where
  minAccessibilityScore : String
  minBestPracticesScore : String
  minPerformanceScore : String
  minProgressiveWebAppScore : String
  minSeoScore : String
deriving DecidableEq

/-- Normalization of the five raw threshold inputs, as in the top-level
try block. -/
def normalizeConfig (raw : RawInputs) : ThresholdConfig where
  minAccessibilityScore := normalizeInput raw.minAccessibilityScore
  minBestPracticesScore := normalizeInput raw.minBestPracticesScore
  minPerformanceScore := normalizeInput raw.minPerformanceScore
  minProgressiveWebAppScore := normalizeInput raw.minProgressiveWebAppScore
  minSeoScore := normalizeInput raw.minSeoScore

/-- The guard of the top-level `if`: some normalized threshold is truthy. -/
def anyThresholdSet (cfg : ThresholdConfig) : Bool :=
  truthy cfg.minAccessibilityScore || truthy cfg.minBestPracticesScore
    || truthy cfg.minPerformanceScore || truthy cfg.minProgressiveWebAppScore
    || truthy cfg.minSeoScore

/-- `getFailureMessages` as the source actually calls it (line 45):
`results` is bound to the raw un-parsed string from `core.getInput`, so
`results.data` is `undefined` for every string and `.reduce` on
`undefined` throws a `TypeError` — the call never returns a message
list, whatever the string contains.  `Except.error` carries the thrown
exception's message. -/
def getFailureMessagesOnRawString (_resultsInput : String) : Except String (List String) :=
  Except.error "Cannot read properties of undefined (reading 'reduce')"

/-- The whole top-level try/catch of `src/index.js`.  `resultsInput` is
the raw string returned by `core.getInput('lighthouseCheckResults')` —
the source never `JSON.parse`s it.  When the guard is true the scan is
attempted on that string; if it threw, the catch hands the exception
text to `core.setFailed`; if it had returned messages, a non-empty list
would be reported with the fixed header.  `none` means the invocation
succeeds (nothing reported), `some msg` that it is marked failed with
explanation `msg`. -/
def runAction (raw : RawInputs) (resultsInput : String) : Option String :=
  let cfg := normalizeConfig raw
  if anyThresholdSet cfg then
    match getFailureMessagesOnRawString resultsInput with
    | .error e => some e
    | .ok failures =>
      if failures.length ≠ 0 then
        some ("Minimum score requirements failed:\n" ++ String.intercalate "\n" failures)
      else
        none
  else
    none

/-- All five threshold inputs left empty (absent). -/
def allEmptyRaw : RawInputs := ⟨"", "", "", "", ""⟩

/-- A raw `lighthouseCheckResults` input string carrying a top-level
`runtimeError` (braces written as hex escapes). -/
def resultsInputRuntimeError : String :=
  "\x7b\"data\":[],\"runtimeError\":\"Something went wrong.\"\x7d"

/- ### Helper lemmas (shared) -/

theorem foldl_append_eq_flatMap {α β : Type} (f : α → List β) (l : List α) (acc : List β) :
    l.foldl (fun a c => a ++ f c) acc = acc ++ l.flatMap f := by
  induction l generalizing acc with
  | nil => simp
  | cons x xs ih => simp [List.foldl, ih]

theorem getFailureMessages_eq_flatMap (cfg : ThresholdConfig) (results : ResultsPayload) :
    getFailureMessages cfg results = results.data.flatMap (resultMessages cfg) := by
  unfold getFailureMessages
  simpa using foldl_append_eq_flatMap (resultMessages cfg) results.data []

theorem jsLt_none_right (a : Option Int) : jsLt a none = false := by
  cases a <;> rfl

/- ### Claims -/

/-- C1 counterexample: with all five thresholds absent and a results
input carrying a top-level `runtimeError`, the invocation reports
nothing at all (it silently passes), instead of the `Fail` outcomes the
claim demands; the same happens without a `runtimeError`. -/
theorem c1_counterexample :
    runAction allEmptyRaw resultsInputRuntimeError = none ∧
    runAction allEmptyRaw "\x7b\"data\":[]\x7d" = none := by
  exact ⟨rfl, rfl⟩

/-- C1 (amended): when all five thresholds are absent, the top-level
guard is false, the results input is never touched, and the invocation
succeeds silently for every input — the top-level `runtimeError` is
never inspected and no "All scores were missing" message exists. -/
theorem c1_all_absent_silently_passes :
    ∀ resultsInput : String, runAction allEmptyRaw resultsInput = none := by
  intro resultsInput
  rfl

/-- C2: a threshold supplied as `'0'` is a truthy non-`undefined` string,
so it is never conflated with an absent threshold: it counts in the
"at least one threshold set" guard, and for a present score the numeric
comparison makes the category fail exactly for scores below 0 (an absent
score still contributes nothing). -/
theorem c2_zero_threshold_is_set :
    normalizeInput "0" ≠ JSVal.undef ∧
    truthy (normalizeInput "0") = true ∧
    truthy (normalizeInput "") = false ∧
    anyThresholdSet (normalizeConfig ⟨"", "", "0", "", ""⟩) = true ∧
    (∀ (name url : String) (n : Int),
      getScoreFailMessage name url (normalizeInput "0") (JSVal.num n) ≠ [] ↔ n < 0) ∧
    (∀ name url : String,
      getScoreFailMessage name url (normalizeInput "0") JSVal.undef = []) := by
  refine ⟨by decide, rfl, rfl, rfl, ?_, fun name url => rfl⟩
  intro name url n
  show getScoreFailMessage name url (JSVal.str "0") (JSVal.num n) ≠ [] ↔ n < 0
  by_cases hn : n = 0
  · subst hn
    simp [getScoreFailMessage, truthy]
  · simp only [getScoreFailMessage, truthy, toNumber, jsLt, jsStringToNumber]
    by_cases hlt : n < 0
    · simp [hn, hlt]
    · simp [hn, hlt]

/-- C3 counterexample: `normalizeInput` neither parses a numeric raw
value to a number nor rejects a non-numeric one — both come back
unchanged as strings, and no `InvalidConfiguration` failure exists. -/
theorem c3_counterexample :
    normalizeInput "abc" = JSVal.str "abc" ∧ normalizeInput "95" = JSVal.str "95" := by
  exact ⟨rfl, rfl⟩

/-- C3 (amended): `normalizeInput` maps the empty string to absent
(`undefined`) and `'true'`/`'false'` to booleans; every other raw value
is returned unchanged as a string with no numeric parsing and no
possibility of error.  A non-numeric threshold simply converts to `NaN`
downstream, where every comparison is false, so it can never produce a
failure message. -/
theorem c3_normalize_never_parses_nor_fails :
    normalizeInput "" = JSVal.undef ∧
    (∀ s : String, s ≠ "" → s ≠ "true" → s ≠ "false" → normalizeInput s = JSVal.str s) ∧
    (∀ (name url s : String) (sv : JSVal), jsStringToNumber s = none →
      getScoreFailMessage name url (JSVal.str s) sv = []) := by
  refine ⟨rfl, ?_, ?_⟩
  · intro s hs ht hf
    simp [normalizeInput, hs, ht, hf]
  · intro name url s sv h
    unfold getScoreFailMessage
    rw [show toNumber (JSVal.str s) = none from by simp [toNumber, h],
      jsLt_none_right]
    simp

/-- C3 witness. -/
theorem c3_witness :
    normalizeInput "abc" = JSVal.str "abc" ∧
    getScoreFailMessage "Performance" "https://a.test" (JSVal.str "abc") (JSVal.num 50) = [] :=
  ⟨c3_normalize_never_parses_nor_fails.2.1 "abc" (by decide) (by decide) (by decide),
    c3_normalize_never_parses_nor_fails.2.2 "Performance" "https://a.test" "abc"
      (JSVal.num 50) (by rfl)⟩

/-- C4: a present score of exactly 0 is falsy, so `getScoreFailMessage`
returns no failure for it whatever the threshold is — identical to an
absent score. -/
theorem c4_zero_score_treated_as_absent :
    ∀ (name url : String) (m : JSVal),
      getScoreFailMessage name url m (JSVal.num 0) = getScoreFailMessage name url m JSVal.undef ∧
      getScoreFailMessage name url m (JSVal.num 0) = [] := by
  intro name url m
  constructor <;> simp [getScoreFailMessage, truthy]

/-- Threshold input `minPerformanceScore = "95"`, the others absent. -/
def rawPerf95 : RawInputs := ⟨"", "", "95", "", ""⟩

/-- One audit result with performance score 90. -/
def payloadPerf90 : ResultsPayload :=
  ⟨[⟨"https://a.test", ⟨none, none, some 90, none, none⟩, none⟩], none⟩

/-- One audit result with performance score 96. -/
def payloadPerf96 : ResultsPayload :=
  ⟨[⟨"https://a.test", ⟨none, none, some 96, none, none⟩, none⟩], none⟩

/-- The raw JSON text whose parse is `payloadPerf90` (braces written as
hex escapes); the source never performs that parse. -/
def resultsInputPerf90 : String :=
  "\x7b\"data\":[\x7b\"url\":\"https://a.test\",\"scores\":\x7b\"performance\":90\x7d\x7d]\x7d"

/-- The raw JSON text whose parse is `payloadPerf96` (braces written as
hex escapes); the source never performs that parse. -/
def resultsInputPerf96 : String :=
  "\x7b\"data\":[\x7b\"url\":\"https://a.test\",\"scores\":\x7b\"performance\":96\x7d\x7d]\x7d"

/-- C5 (code bug): because `lighthouseCheckResults` is never parsed,
once any threshold is set the scan throws a `TypeError` and the
invocation is always marked failed — even on this input whose every
present score exceeds its threshold, where the scan over the parsed
payload would have collected no failure message and the claim (and the
spec) demand a `Pass`. -/
theorem c5_code_bug_never_passes :
    runAction rawPerf95 resultsInputPerf96 =
      some "Cannot read properties of undefined (reading 'reduce')" ∧
    getFailureMessages (normalizeConfig rawPerf95) payloadPerf96 = [] := by
  exact ⟨rfl, by decide⟩

/-- C6: the evaluator scans every audit result and every category; the
collected list is exactly the concatenation, in payload order, of each
result's messages in the fixed category order Accessibility, Best
Practices, Performance, Progressive Web App, SEO — no sorting, nothing
dropped. -/
theorem c6_full_scan_ordered :
    ∀ (cfg : ThresholdConfig) (results : ResultsPayload),
      getFailureMessages cfg results =
        results.data.flatMap (fun current =>
          getScoreFailMessage "Accessibility" current.url cfg.minAccessibilityScore
              (scoreVal current.scores.accessibility)
            ++ getScoreFailMessage "Best Practices" current.url cfg.minBestPracticesScore
              (scoreVal current.scores.bestPractices)
            ++ getScoreFailMessage "Performance" current.url cfg.minPerformanceScore
              (scoreVal current.scores.performance)
            ++ getScoreFailMessage "Progressive Web App" current.url cfg.minProgressiveWebAppScore
              (scoreVal current.scores.progressiveWebApp)
            ++ getScoreFailMessage "SEO" current.url cfg.minSeoScore
              (scoreVal current.scores.seo)) := by
  intro cfg results
  exact getFailureMessages_eq_flatMap cfg results

/-- C7 counterexample: a present performance score of exactly 0 against
threshold `'95'` — it is numerically below the threshold, yet the score-0
short circuit emits no message, contradicting the claim's demanded
single message. -/
theorem c7_counterexample :
    getScoreFailMessage "Performance" "https://a.test" (JSVal.str "95") (JSVal.num 0) = [] ∧
    getScoreFailMessage "Performance" "https://a.test" (JSVal.str "95") (JSVal.num 0) ≠
      ["https://a.test: Performance: minimum score: 95, actual score: 0"] := by
  exact ⟨rfl, by decide⟩

/-- C7 (amended): for a present NON-ZERO score and a set, numerically
valid threshold, if the score is below the threshold then exactly one
failure message of the exact form
`"<url>: <name>: minimum score: <threshold>, actual score: <score>"` is
produced (a present score of exactly 0 is instead skipped, see C4). -/
theorem c7_message_exact_form :
    ∀ (name url w : String) (s t : Int),
      jsStringToNumber w = some t → w ≠ "" → s ≠ 0 → s < t →
      getScoreFailMessage name url (JSVal.str w) (JSVal.num s) =
        [url ++ ": " ++ name ++ ": minimum score: " ++ w ++ ", actual score: " ++ toString s] := by
  intro name url w s t hw hwne hs hlt
  unfold getScoreFailMessage
  rw [show truthy (JSVal.str w) = true from by simp [truthy, hwne]]
  rw [show truthy (JSVal.num s) = true from by simp [truthy, hs]]
  rw [show jsLt (toNumber (JSVal.num s)) (toNumber (JSVal.str w)) = true from by
    rw [show toNumber (JSVal.num s) = some s from rfl,
      show toNumber (JSVal.str w) = jsStringToNumber w from rfl, hw]
    show decide (s < t) = true
    exact decide_eq_true hlt]
  simp [jsToString]

/-- C7 witness. -/
theorem c7_witness :
    getScoreFailMessage "Performance" "https://a.test" (JSVal.str "95") (JSVal.num 90) =
      ["https://a.test: Performance: minimum score: 95, actual score: 90"] :=
  c7_message_exact_form "Performance" "https://a.test" "95" 90 95 (by rfl) (by decide)
    (by decide) (by decide)

/-- C8: a category whose threshold is absent (empty input, normalized to
`undefined`) never contributes a failure message whatever the score, and
a category whose score is absent never contributes one whatever the
threshold. -/
theorem c8_absent_never_contributes :
    ∀ (name url : String) (sv m : JSVal),
      getScoreFailMessage name url (normalizeInput "") sv = [] ∧
      getScoreFailMessage name url m JSVal.undef = [] := by
  intro name url sv m
  constructor
  · rw [show normalizeInput "" = JSVal.undef from rfl]
    simp [getScoreFailMessage, truthy]
  · simp [getScoreFailMessage, truthy]

/-- C9 (code bug): the header throw is dead code.  On an input that
should produce the failure message collected by the scan, the un-parsed
string makes `getFailureMessages` throw first, so the reporter is handed
the `TypeError` text — never the fixed header followed by the
newline-joined messages that the claim (and the spec) demand. -/
theorem c9_code_bug_header_unreachable :
    runAction rawPerf95 resultsInputPerf90 =
      some "Cannot read properties of undefined (reading 'reduce')" ∧
    runAction rawPerf95 resultsInputPerf90 ≠
      some ("Minimum score requirements failed:\n" ++
        String.intercalate "\n" (getFailureMessages (normalizeConfig rawPerf95) payloadPerf90)) := by
  exact ⟨rfl, by decide⟩

/-- C10: evaluation is deterministic — the whole pipeline is a pure
function of the raw inputs (including the raw results string), so
identical inputs produce identical outcomes, even through the
`TypeError` path. -/
theorem c10_deterministic :
    ∀ (raw1 raw2 : RawInputs) (input1 input2 : String),
      raw1 = raw2 → input1 = input2 →
      runAction raw1 input1 = runAction raw2 input2 := by
  intro raw1 raw2 input1 input2 h1 h2
  rw [h1, h2]

/-- C10 witness. -/
theorem c10_witness :
    runAction rawPerf95 resultsInputPerf90 = runAction rawPerf95 resultsInputPerf90 :=
  c10_deterministic rawPerf95 rawPerf95 resultsInputPerf90 resultsInputPerf90 rfl rfl
